import Mathlib

/-!
Verification of the seed-rust message relay against its specification.

Rust strings are modelled as Lean `String`, byte strings as `List Nat`
(each element < 256), the Postgres `messages` relation as a `List Row`
in insertion order, and the `DashMap`/`HashMap` registries as
association lists.  All definitions are translated from the Rust
sources (`src/base64.rs`, `src/infrastructure/database.rs`,
`src/infrastructure/websocket.rs`, `src/use_case/messages.rs`,
`src/use_case/websocket.rs`); the base64 codec is the `base64` crate's
`general_purpose::STANDARD` engine (canonical padding required,
trailing bits rejected), which `src/base64.rs` delegates to.
-/

deriving instance DecidableEq for Except

namespace SeedRust

/-- The standard base64 alphabet used by `general_purpose::STANDARD`. -/
def b64Alphabet : List Char :=
  "ABCDEFGHIJKLMNOPQRSTUVWXYZabcdefghijklmnopqrstuvwxyz0123456789+/".data

/-- Index of a character in a list of characters (first occurrence). -/
def charIdx (c : Char) : List Char → Option Nat
  | [] => none
  | a :: rest => if a = c then some 0 else (charIdx c rest).map (· + 1)

/-- Decode one base64 character to its 6-bit value (`none` if not in the alphabet). -/
def decChar (c : Char) : Option Nat := charIdx c b64Alphabet

/-- Encode a 6-bit value as a base64 character. -/
def encChar (n : Nat) : Char := b64Alphabet.getD n 'A'

/-- Core base64 encoder over byte lists, as the `base64` crate's STANDARD
engine (with padding) produces it. -/
def encB64 : List Nat → List Char
  | [] => []
  | [b1] => [encChar (b1 / 4), encChar (b1 % 4 * 16), '=', '=']
  | [b1, b2] => [encChar (b1 / 4), encChar (b1 % 4 * 16 + b2 / 16),
      encChar (b2 % 16 * 4), '=']
  | b1 :: b2 :: b3 :: rest =>
      encChar (b1 / 4) :: encChar (b1 % 4 * 16 + b2 / 16) ::
      encChar (b2 % 16 * 4 + b3 / 64) :: encChar (b3 % 64) :: encB64 rest

/-- Core base64 decoder over character lists, as the `base64` crate's STANDARD
engine accepts it: length must be a multiple of four, `=` padding only at the
end and canonical, trailing bits must be zero. -/
def decB64 : List Char → Option (List Nat)
  | [] => some []
  | c1 :: c2 :: c3 :: c4 :: rest =>
      match decChar c1, decChar c2 with
      | some a, some b =>
        if c3 = '=' then
          if c4 = '=' ∧ rest = [] ∧ b % 16 = 0 then
            some [a * 4 + b / 16]
          else none
        else
          match decChar c3 with
          | some c =>
            if c4 = '=' then
              if rest = [] ∧ c % 4 = 0 then
                some [a * 4 + b / 16, b % 16 * 16 + c / 4]
              else none
            else
              match decChar c4, decB64 rest with
              | some d, some tail =>
                  some ((a * 4 + b / 16) :: (b % 16 * 16 + c / 4) ::
                        (c % 4 * 64 + d) :: tail)
              | _, _ => none
          | none => none
      | _, _ => none
  | _ => none

/-- `encode_base64` from `src/base64.rs`: standard base64 encoding of bytes. -/
def encode_base64 (input : List Nat) : String := String.mk (encB64 input)

/-- `decode_base64` from `src/base64.rs`: standard base64 decoding of a
string, `none` on any decode error. -/
def decode_base64 (input : String) : Option (List Nat) := decB64 input.data

/-- A stored row of the Postgres `messages` relation
(`messages(nonce, chat_id, signature, content, content_iv)`). -/
structure Row where
  nonce : Nat
  chat_id : List Nat
  signature : List Nat
  content : List Nat
  content_iv : List Nat
deriving DecidableEq

/-- The `messages` relation in insertion order. -/
abbrev Store := List Row

/-- Error kinds raised by the database layer
(`DatabaseError::NotFound`, base64 `DecodeError`, `SeedError::InvalidNonce`). -/
inductive SeedDbError where
  | notFound
  | decodeError
  | invalidNonce
deriving DecidableEq

/-- The wire `Message` object (`seed/entity/message.rs`): nonce plus four
base64-encoded string fields. -/
structure Message where
  nonce : Nat
  chat_id : String
  signature : String
  content : String
  content_iv : String
deriving DecidableEq

/-- `OutcomeMessage` (`seed/entity/message.rs`): same shape as `Message`,
used for frames sent back to clients. -/
structure OutcomeMessage where
  nonce : Nat
  chat_id : String
  signature : String
  content : String
  content_iv : String
deriving DecidableEq

/-- `PostgresDatabase::get_last_nonce`: `SELECT MAX(nonce) FROM messages
WHERE chat_id = $1`; the code maps a NULL max (no rows for this chat) to
`Err(DatabaseError::NotFound)` rather than 0. -/
def get_last_nonce (store : Store) (chat_id : List Nat) : Except SeedDbError Nat :=
  match (store.filter fun r => r.chat_id == chat_id).map (fun r => r.nonce) with
  | [] => .error .notFound
  | n :: rest => .ok (rest.foldl max n)

/-- `PostgresDatabase::insert_message`: decodes the four base64 fields,
fetches the last nonce, requires `message.nonce = last_nonce + 1`, then
executes `INSERT ... VALUES ($1, ...)` binding `last_nonce` — not
`message.nonce` — as the stored nonce column (database.rs lines 136–148). -/
def insert_message (store : Store) (message : Message) : Except SeedDbError Store :=
  match decode_base64 message.chat_id with
  | none => .error .decodeError
  | some chat_id =>
    match decode_base64 message.signature with
    | none => .error .decodeError
    | some signature =>
      match decode_base64 message.content with
      | none => .error .decodeError
      | some content =>
        match decode_base64 message.content_iv with
        | none => .error .decodeError
        | some content_iv =>
          match get_last_nonce store chat_id with
          | .error _ => .error .notFound
          | .ok last_nonce =>
            if message.nonce ≠ last_nonce + 1 then .error .invalidNonce
            else .ok (store ++ [⟨last_nonce, chat_id, signature, content, content_iv⟩])

/-- Insert a row into a list sorted by ascending nonce (stable). -/
def insertByNonce (r : Row) : List Row → List Row
  | [] => [r]
  | x :: xs => if r.nonce < x.nonce then r :: x :: xs else x :: insertByNonce r xs

/-- `ORDER BY nonce ASC` over a list of rows. -/
def sortByNonce : List Row → List Row
  | [] => []
  | x :: xs => insertByNonce x (sortByNonce xs)

/-- Row-to-`OutcomeMessage` conversion inside
`PostgresDatabase::fetch_history`: base64-encodes the binary columns, but
the `content_iv` output field is built from `row.chat_id` instead of
`row.content_iv` (database.rs line 220). -/
def rowToOutcome (r : Row) : OutcomeMessage :=
  { nonce := r.nonce
    chat_id := encode_base64 r.chat_id
    signature := encode_base64 r.signature
    content := encode_base64 r.content
    content_iv := encode_base64 r.chat_id }

/-- `PostgresDatabase::fetch_history`: `SELECT ... WHERE chat_id = $1 AND
nonce >= $2 ORDER BY nonce ASC LIMIT $3`, converted row by row via
`rowToOutcome`. -/
def fetch_history (store : Store) (chat_id : List Nat) (nonce amount : Nat) :
    List OutcomeMessage :=
  ((sortByNonce (store.filter fun r =>
      r.chat_id == chat_id && decide (nonce ≤ r.nonce))).take amount).map rowToOutcome

/-- `MessagesUseCase::is_valid_message`: early-returns false when
`chat_id`, `signature` or `content_iv` fails base64 decoding; the
`content` field and the nonce are not examined. -/
def is_valid_message (message : OutcomeMessage) : Bool :=
  match decode_base64 message.chat_id with
  | none => false
  | some _ =>
    match decode_base64 message.signature with
    | none => false
    | some _ =>
      match decode_base64 message.content_iv with
      | none => false
      | some _ => true

/-- `MESSAGES_LIMIT` from `use_case/messages.rs`. -/
def MESSAGES_LIMIT : Nat := 100

/-- One more than `usize::MAX` on a 64-bit target; `checked_add` returns
`None` exactly when the mathematical sum reaches this bound. -/
def USIZE_BOUND : Nat := 2 ^ 64

/-- Outbound frames a handler can emit: `Status`, `event/new`, `event/wait`
(`seed/entity/response.rs`). -/
inductive Frame where
  | status (status : Bool)
  | newEvent (message : OutcomeMessage)
  | waitEvent (chat_id : String)
deriving DecidableEq

/-- `MessagesUseCase::unread_message_response`: streams history in batches
of `MESSAGES_LIMIT`, stopping after a batch smaller than the limit;
advances the cursor with `checked_add`, emitting `Status(false)` and
returning when the addition would overflow `usize`. -/
def unread_message_response (store : Store) (chat_id : List Nat) (nonce : Nat) :
    List Frame :=
  if (fetch_history store chat_id nonce MESSAGES_LIMIT).length < MESSAGES_LIMIT then
    (fetch_history store chat_id nonce MESSAGES_LIMIT).map Frame.newEvent
  else if _h : nonce + MESSAGES_LIMIT < USIZE_BOUND then
    (fetch_history store chat_id nonce MESSAGES_LIMIT).map Frame.newEvent ++
      unread_message_response store chat_id (nonce + MESSAGES_LIMIT)
  else
    (fetch_history store chat_id nonce MESSAGES_LIMIT).map Frame.newEvent ++
      [Frame.status false]
termination_by USIZE_BOUND - nonce
decreasing_by simp only [MESSAGES_LIMIT, USIZE_BOUND] at *; omega

/-- The incoming envelope as the actor reads it
(`infrastructure/websocket.rs`): a `type` discriminator string and an
optional `message` payload. -/
structure IncomeMessage where
  rtype : String
  message : Option Message
deriving DecidableEq

/-- `ConnectedMessage` (`seed/entity/websocket.rs`): the envelope paired
with the id of the connection it arrived on. -/
structure ConnectedMessage where
  connection : Nat
  message : IncomeMessage
deriving DecidableEq

/-- `WebSocketManager` (`seed/entity/websocket.rs`): connection → subscribed
chats, chat → subscriber connections, and the per-chat worker queues,
modelled as association lists; connections are identified by their uuid,
modelled as a `Nat`. -/
structure WebSocketManager where
  connections : List (Nat × List String)
  chats : List (String × List Nat)
  message_queues : List (String × List ConnectedMessage)
deriving DecidableEq

/-- A manager with no connections, chats or queues. -/
def emptyManager : WebSocketManager := ⟨[], [], []⟩

/-- Association-list lookup (models map `get`). -/
def lookupA {α β : Type} [BEq α] (k : α) : List (α × β) → Option β
  | [] => none
  | (a, b) :: rest => if a == k then some b else lookupA k rest

/-- Association-list update of an existing key (models map `get_mut`). -/
def setA {α β : Type} [BEq α] (k : α) (v : β) : List (α × β) → List (α × β)
  | [] => []
  | (a, b) :: rest => if a == k then (a, v) :: rest else (a, b) :: setA k v rest

/-- Association-list removal (models map `remove`). -/
def removeA {α β : Type} [BEq α] (k : α) : List (α × β) → List (α × β)
  | [] => []
  | (a, b) :: rest => if a == k then rest else (a, b) :: removeA k rest

/-- The registration half of `WebSocketUseCase::start_message_processor`:
creates the flume channel and inserts it into `message_queues` (the spawned
loop itself is modelled by `process_queue_events`). -/
def start_message_processor_spawn (m : WebSocketManager) (chat_id : String) :
    WebSocketManager :=
  { m with message_queues := m.message_queues ++ [(chat_id, [])] }

/-- `WebSocketUseCase::subscribe_to_chat`: `connections.entry(connection)
.or_default()`, `chats.entry(chat_id).or_default()`, then spawns a message
processor if none exists.  Note it only creates (empty) entries: it inserts
neither the chat into the connection's set nor the connection into the
chat's set. -/
def subscribe_to_chat (m : WebSocketManager) (conn : Nat) (chat_id : String) :
    WebSocketManager :=
  let m1 : WebSocketManager :=
    { m with connections :=
        if (lookupA conn m.connections).isSome then m.connections
        else m.connections ++ [(conn, [])] }
  let m2 : WebSocketManager :=
    { m1 with chats :=
        if (lookupA chat_id m1.chats).isSome then m1.chats
        else m1.chats ++ [(chat_id, [])] }
  if (lookupA chat_id m2.message_queues).isSome then m2
  else start_message_processor_spawn m2 chat_id

/-- `WebSocketUseCase::unsubscribe_from_chat`: removes the chat from the
connection's set (dropping the entry if it becomes empty) and the
connection from the chat's set (dropping the entry if it becomes empty). -/
def unsubscribe_from_chat (m : WebSocketManager) (conn : Nat) (chat_id : String) :
    WebSocketManager :=
  let connections :=
    match lookupA conn m.connections with
    | none => m.connections
    | some subs =>
      let subs := subs.filter fun c => !(c == chat_id)
      if subs.isEmpty then removeA conn m.connections
      else setA conn subs m.connections
  let chats :=
    match lookupA chat_id m.chats with
    | none => m.chats
    | some conns =>
      let conns := conns.filter fun c => !(c == conn)
      if conns.isEmpty then removeA chat_id m.chats
      else setA chat_id conns m.chats
  ⟨connections, chats, m.message_queues⟩

/-- `From<Message> for OutcomeMessage`: field-for-field copy. -/
def outcomeOfMessage (m : Message) : OutcomeMessage :=
  ⟨m.nonce, m.chat_id, m.signature, m.content, m.content_iv⟩

/-- `From<IncomeMessage> for OutcomeMessage`: converts the payload when
present, otherwise a default (zero / empty) message. -/
def outcomeOfIncome (im : IncomeMessage) : OutcomeMessage :=
  match im.message with
  | some m => outcomeOfMessage m
  | none => ⟨0, "", "", "", ""⟩

/-- One iteration of the receive loop in
`WebSocketUseCase::start_message_processor`: extract the payload (skipping
envelopes without one), persist it via `insert_message`, log-and-continue
on error.  The loop emits no outbound frames. -/
def process_queue_event (acc : Store × List Frame) (event : ConnectedMessage) :
    Store × List Frame :=
  match event.message.message with
  | some msg =>
    match insert_message acc.1 msg with
    | .ok db => (db, acc.2)
    | .error _ => acc
  | none => acc

/-- The receive loop of `WebSocketUseCase::start_message_processor` run over
a finite queue of events, returning the final store and every frame the
worker sent to subscribers. -/
def process_queue_events (db : Store) (events : List ConnectedMessage) :
    Store × List Frame :=
  events.foldl process_queue_event (db, [])

/-- Result of `WebSocketActor::handle` on one received text frame:
`panicked` models the `serde_json::from_str(&text).unwrap()` panic; `ok`
carries the emitted frames and the updated store and manager, the loop then
continuing with the connection open (every match arm ends in `continue` or
falls through to the next iteration). -/
inductive HandleOutcome where
  | panicked
  | ok (frames : List Frame) (db : Store) (manager : WebSocketManager)
deriving DecidableEq

/-- `WebSocketActor::handle`, one text frame (`infrastructure/websocket.rs`
lines 60–209).  `parsed` is the result of `serde_json::from_str`, `none`
when the frame is malformed JSON. -/
def handle_frame (db : Store) (manager : WebSocketManager) (conn : Nat)
    (parsed : Option IncomeMessage) : HandleOutcome :=
  match parsed with
  | none => .panicked
  | some incoming =>
    if incoming.rtype = "ping" then .ok [.status true] db manager
    else if incoming.rtype = "send" then
      match incoming.message with
      | none => .ok [] db manager
      | some inner =>
        if is_valid_message (outcomeOfIncome incoming) then
          match lookupA inner.chat_id manager.message_queues with
          | some queued =>
              .ok [] db
                { manager with message_queues :=
                    (setA inner.chat_id (queued ++ [⟨conn, incoming⟩])
                      manager.message_queues) }
          | none =>
            match insert_message db inner with
            | .error _ => .ok [.status false] db manager
            | .ok db2 => .ok [.status true] db2 manager
        else .ok [.status false] db manager
    else if incoming.rtype = "subscribe" then
      match incoming.message with
      | none => .ok [.status false] db manager
      | some inner =>
        match decode_base64 inner.chat_id with
        | none => .ok [.status false] db manager
        | some chat_bytes =>
          .ok ([.status true] ++ unread_message_response db chat_bytes inner.nonce ++
               [.waitEvent inner.chat_id]) db (subscribe_to_chat manager conn inner.chat_id)
    else if incoming.rtype = "unsubscribe" then
      match incoming.message with
      | none => .ok [.status false] db manager
      | some inner =>
          .ok [.status true] db (unsubscribe_from_chat manager conn inner.chat_id)
    else .ok [.status false] db manager

theorem charIdx_getD {c : Char} {l : List Char} {n : Nat}
    (h : charIdx c l = some n) (d : Char) : l.getD n d = c := by
  induction l generalizing n with
  | nil => exact absurd h (by simp [charIdx])
  | cons a rest ih =>
    by_cases hac : a = c
    · rw [charIdx, if_pos hac] at h
      injection h with h
      subst h
      simpa using hac
    · rw [charIdx, if_neg hac] at h
      rcases hm : charIdx c rest with _ | m <;> rw [hm] at h
      · exact absurd h (by simp)
      · simp only [Option.map_some', Option.some.injEq] at h
        subst h
        simpa using ih hm

theorem decChar_encChar {c : Char} {n : Nat} (h : decChar c = some n) :
    encChar n = c :=
  charIdx_getD h 'A'

theorem charIdx_lt_length {c : Char} {l : List Char} {n : Nat}
    (h : charIdx c l = some n) : n < l.length := by
  induction l generalizing n with
  | nil => exact absurd h (by simp [charIdx])
  | cons a rest ih =>
    by_cases hac : a = c
    · rw [charIdx, if_pos hac] at h
      injection h with h
      subst h
      simp
    · rw [charIdx, if_neg hac] at h
      rcases hm : charIdx c rest with _ | m <;> rw [hm] at h
      · exact absurd h (by simp)
      · simp only [Option.map_some', Option.some.injEq] at h
        subst h
        have := ih hm
        simp
        omega

theorem decChar_lt_64 {c : Char} {n : Nat} (h : decChar c = some n) : n < 64 :=
  charIdx_lt_length h

/-- Round trip at the chunk level: any character list accepted by the core
decoder is recovered exactly by the core encoder. -/
theorem encB64_decB64 : ∀ (l : List Char) (bs : List Nat),
    decB64 l = some bs → encB64 bs = l
  | [], bs, h => by
      rw [show decB64 [] = some [] from rfl] at h
      injection h with h
      subst h
      rfl
  | [c1], bs, h => by
      rw [show decB64 [c1] = none from rfl] at h
      cases h
  | [c1, c2], bs, h => by
      rw [show decB64 [c1, c2] = none from rfl] at h
      cases h
  | [c1, c2, c3], bs, h => by
      rw [show decB64 [c1, c2, c3] = none from rfl] at h
      cases h
  | c1 :: c2 :: c3 :: c4 :: rest, bs, h => by
      rw [decB64] at h
      rcases ha : decChar c1 with _ | a <;> rw [ha] at h
      · exact absurd h (by simp)
      rcases hb : decChar c2 with _ | b <;> rw [hb] at h
      · exact absurd h (by simp)
      simp only at h
      have ha64 := decChar_lt_64 ha
      have hb64 := decChar_lt_64 hb
      by_cases h3 : c3 = '='
      · simp only [h3, if_true] at h
        split at h
        · rename_i hcond
          obtain ⟨h4, hrest, hbits⟩ := hcond

          cases h
          have e1 : (a * 4 + b / 16) / 4 = a := by omega
          have e2 : (a * 4 + b / 16) % 4 * 16 = b := by omega
          simp [encB64, e1, e2, decChar_encChar ha, decChar_encChar hb,
            h3, h4, hrest]
        · exact absurd h (by simp)
      · simp only [h3, if_false] at h
        rcases hc : decChar c3 with _ | c <;> rw [hc] at h
        · exact absurd h (by simp)
        simp only at h
        have hc64 := decChar_lt_64 hc
        by_cases h4 : c4 = '='
        · simp only [h4, if_true] at h
          split at h
          · rename_i hcond
            obtain ⟨hrest, hbits⟩ := hcond
            cases h
            have e1 : (a * 4 + b / 16) / 4 = a := by omega
            have e2 : (a * 4 + b / 16) % 4 * 16 + (b % 16 * 16 + c / 4) / 16 = b := by
              omega
            have e3 : (b % 16 * 16 + c / 4) % 16 * 4 = c := by omega
            simp [encB64, e1, e2, e3, decChar_encChar ha, decChar_encChar hb,
              decChar_encChar hc, h4, hrest]
          · exact absurd h (by simp)
        · simp only [h4, if_false] at h
          rcases hd : decChar c4 with _ | d <;> rw [hd] at h
          · exact absurd h (by simp)
          rcases htail : decB64 rest with _ | tail <;> rw [htail] at h
          · exact absurd h (by simp)
          simp only [Option.some.injEq] at h
          have hd64 := decChar_lt_64 hd
          cases h
          have e1 : (a * 4 + b / 16) / 4 = a := by omega
          have e2 : (a * 4 + b / 16) % 4 * 16 + (b % 16 * 16 + c / 4) / 16 = b := by
            omega
          have e3 : (b % 16 * 16 + c / 4) % 16 * 4 + (c % 4 * 64 + d) / 64 = c := by
            omega
          have e4 : (c % 4 * 64 + d) % 64 = d := by omega
          simp [encB64, e1, e2, e3, e4, decChar_encChar ha, decChar_encChar hb,
            decChar_encChar hc, decChar_encChar hd, encB64_decB64 rest tail htail]

/-- C1: the claim says an empty queue has high-water 0, so a first send with
nonce 1 succeeds and the client receives `Status(true)`.  The code instead
maps the NULL `MAX(nonce)` of an empty queue to `DatabaseError::NotFound`
(contradicting `get_last_nonce`'s own doc comment "Highest known nonce or 0
if none exist"), so `insert_message` fails and the sender receives
`Status(false)`: evaluated here on an empty store and the S1 scenario
message `{nonce 1, queueId "Zm9v", signature "c2ln", content "Y3R4",
contentIV "aXY="}`. -/
theorem C1_empty_queue_first_send_rejected :
    get_last_nonce [] [102, 111, 111] = .error .notFound ∧
    insert_message [] ⟨1, "Zm9v", "c2ln", "Y3R4", "aXY="⟩ = .error .notFound ∧
    handle_frame [] emptyManager 0
        (some ⟨"send", some ⟨1, "Zm9v", "c2ln", "Y3R4", "aXY="⟩⟩) =
      .ok [.status false] [] emptyManager := by
  refine ⟨by decide, by decide, by decide⟩

/-- C2: the claim says a successful append stores a row with nonce
`high_water(qid)+1`.  The code validates `message.nonce = last_nonce + 1`
but then binds `last_nonce` — not `message.nonce` — in the INSERT, so on a
store holding `(foo, 1)` an accepted send with nonce 2 stores a second row
with nonce 1, leaving the stored nonces `[1, 1]` instead of `[1, 2]`. -/
theorem C2_insert_stores_stale_nonce :
    insert_message [⟨1, [102, 111, 111], [115, 105, 103], [99, 116, 120], [105, 118]⟩]
        ⟨2, "Zm9v", "c2ln", "Y3R4", "aXY="⟩ =
      .ok [⟨1, [102, 111, 111], [115, 105, 103], [99, 116, 120], [105, 118]⟩,
           ⟨1, [102, 111, 111], [115, 105, 103], [99, 116, 120], [105, 118]⟩] ∧
    ((insert_message [⟨1, [102, 111, 111], [115, 105, 103], [99, 116, 120], [105, 118]⟩]
        ⟨2, "Zm9v", "c2ln", "Y3R4", "aXY="⟩).toOption.getD []).map (fun r => r.nonce) =
      [1, 1] := by
  refine ⟨by decide, by decide⟩

/-- C3: the claim says the per-queue worker both persists each accepted
`Send` event and fans it out as `event/new` frames to every subscriber.
The worker loop in `start_message_processor` only calls `insert_message`;
it never invokes `broadcast_event` or `new_event_response`, so the list of
frames it sends to subscribers is empty — for every store and every event
sequence, and in particular for a queue with a pending accepted send. -/
theorem C3_worker_never_fans_out :
    (∀ (db : Store) (events : List ConnectedMessage),
        (process_queue_events db events).2 = []) ∧
    (process_queue_events []
        [⟨0, ⟨"send", some ⟨1, "Zm9v", "c2ln", "Y3R4", "aXY="⟩⟩⟩]).2 = [] := by
  have step : ∀ (acc : Store × List Frame) (e : ConnectedMessage),
      (process_queue_event acc e).2 = acc.2 := by
    intro acc e
    rcases hm : e.message.message with _ | msg <;>
      simp only [process_queue_event, hm]
    rcases hins : insert_message acc.1 msg with e2 | db2 <;> simp
  have aux : ∀ (events : List ConnectedMessage) (acc : Store × List Frame),
      (events.foldl process_queue_event acc).2 = acc.2 := by
    intro events
    induction events with
    | nil => intro acc; rfl
    | cons e rest ih => intro acc; rw [List.foldl_cons, ih, step]
  exact ⟨fun db events => aux events (db, []), aux _ _⟩

/-- C4: the claim says malformed JSON or an unknown envelope type is either
ignored or answered with `Status(false)`, and no input frame can panic the
handler.  An unknown envelope type is indeed answered with `Status(false)`,
but a malformed JSON frame (for example the text `{`) makes
`serde_json::from_str(&text).unwrap()` panic — the `// TODO: proper error
handling` comment marks the slip. -/
theorem C4_malformed_json_panics :
    handle_frame [] emptyManager 0 none = .panicked ∧
    handle_frame [] emptyManager 0 (some ⟨"bogus", none⟩) =
      .ok [.status false] [] emptyManager := by
  refine ⟨rfl, by decide⟩

/-- C5: the claim says every history item reproduces its stored row
field-for-field, with `contentIV` the base64 of the stored `content_iv`
bytes.  `fetch_history` builds the `content_iv` output from `row.chat_id`:
on a store holding one row with `chat_id = "foo"` and `content_iv = "iv"`,
the returned `contentIV` is `"Zm9v"` (base64 of `"foo"`) instead of the
correct `"aXY="`. -/
theorem C5_history_emits_chat_id_as_iv :
    fetch_history [⟨1, [102, 111, 111], [115, 105, 103], [99, 116, 120], [105, 118]⟩]
        [102, 111, 111] 1 100 =
      [⟨1, "Zm9v", "c2ln", "Y3R4", "Zm9v"⟩] ∧
    encode_base64 [105, 118] = "aXY=" ∧ ("Zm9v" : String) ≠ "aXY=" := by
  refine ⟨by decide, by decide, by decide⟩

/-- C6 counterexample: the claim says that after a nonce-gap rejection the
handler surfaces `Status(false)` and closes the connection.  On the store
`[(foo, 1)]` and a send with nonce 4, the handler emits `Status(false)` but
the match arm ends in `continue`: the outcome is `ok` (loop keeps running,
connection open), not a close. -/
theorem C6_nonce_gap_counterexample :
    insert_message [⟨1, [102, 111, 111], [115, 105, 103], [99, 116, 120], [105, 118]⟩]
        ⟨4, "Zm9v", "c2ln", "Y3R4", "aXY="⟩ = .error .invalidNonce ∧
    handle_frame [⟨1, [102, 111, 111], [115, 105, 103], [99, 116, 120], [105, 118]⟩]
        emptyManager 0 (some ⟨"send", some ⟨4, "Zm9v", "c2ln", "Y3R4", "aXY="⟩⟩) =
      .ok [.status false]
        [⟨1, [102, 111, 111], [115, 105, 103], [99, 116, 120], [105, 118]⟩]
        emptyManager := by
  refine ⟨by decide, by decide⟩

/-- C6 (amended): for every send whose fields decode and whose nonce is not
`high_water(qid)+1`, `insert_message` returns the nonce error without
changing the store, and — when no worker queue exists for the chat — the
session handler surfaces `Status(false)` and continues the loop with the
connection open and the store and registry unchanged (it does not close the
connection; with a worker present the event is only enqueued and the
failure merely logged). -/
theorem C6_nonce_gap_rejected_without_close (store : Store) (m : Message)
    (chatB sigB ctB ivB : List Nat) (hw : Nat)
    (hchat : decode_base64 m.chat_id = some chatB)
    (hsig : decode_base64 m.signature = some sigB)
    (hct : decode_base64 m.content = some ctB)
    (hiv : decode_base64 m.content_iv = some ivB)
    (hlast : get_last_nonce store chatB = .ok hw)
    (hgap : m.nonce ≠ hw + 1) :
    insert_message store m = .error .invalidNonce ∧
    ∀ (manager : WebSocketManager) (conn : Nat),
      lookupA m.chat_id manager.message_queues = none →
      handle_frame store manager conn (some ⟨"send", some m⟩) =
        .ok [.status false] store manager := by
  have hins : insert_message store m = .error .invalidNonce := by
    unfold insert_message
    simp only [hchat, hsig, hct, hiv]
    rw [hlast]
    simp [hgap]
  refine ⟨hins, ?_⟩
  intro manager conn hq
  have hvalid : is_valid_message (outcomeOfIncome ⟨"send", some m⟩) = true := by
    unfold outcomeOfIncome outcomeOfMessage is_valid_message
    simp only [hchat, hsig, hiv]
  simp [handle_frame, hvalid, hq, hins]

/-- C6 witness: the amended behavior at the S3 scenario input — store
`[(foo, 1)]`, send with nonce 4, no worker queue. -/
theorem C6_nonce_gap_rejected_without_close_witness :
    insert_message [⟨1, [102, 111, 111], [115, 105, 103], [99, 116, 120], [105, 118]⟩]
        ⟨4, "Zm9v", "c2ln", "Y3R4", "aXY="⟩ = .error .invalidNonce ∧
    handle_frame [⟨1, [102, 111, 111], [115, 105, 103], [99, 116, 120], [105, 118]⟩]
        ⟨[], [], []⟩ 7 (some ⟨"send", some ⟨4, "Zm9v", "c2ln", "Y3R4", "aXY="⟩⟩) =
      .ok [.status false]
        [⟨1, [102, 111, 111], [115, 105, 103], [99, 116, 120], [105, 118]⟩]
        ⟨[], [], []⟩ := by
  have h := C6_nonce_gap_rejected_without_close
    [⟨1, [102, 111, 111], [115, 105, 103], [99, 116, 120], [105, 118]⟩]
    ⟨4, "Zm9v", "c2ln", "Y3R4", "aXY="⟩
    [102, 111, 111] [115, 105, 103] [99, 116, 120] [105, 118] 1
    (by decide) (by decide) (by decide) (by decide) (by decide) (by decide)
  exact ⟨h.1, h.2 ⟨[], [], []⟩ 7 (by decide)⟩

/-- C7 counterexample: the claim says a send passes validation only if all
four fields decode as base64 and the nonce is at least 1.  A message whose
`content` is `"!!!"` (not base64) and whose nonce is 0 still passes
`is_valid_message`. -/
theorem C7_validation_counterexample :
    is_valid_message ⟨0, "Zm9v", "c2ln", "!!!", "aXY="⟩ = true ∧
    decode_base64 "!!!" = none := by
  refine ⟨by decide, by decide⟩

/-- C7 (amended): a send passes `is_valid_message` iff `qid`, `signature`
and `contentIV` each decode as base64 — the `content` field and the nonce
are not examined — and a send failing this check is answered with
`Status(false)` while the store and registry are untouched (it never
reaches the store). -/
theorem C7_validation_checks_three_fields (m : OutcomeMessage) :
    (is_valid_message m = true ↔
      (decode_base64 m.chat_id).isSome ∧ (decode_base64 m.signature).isSome ∧
        (decode_base64 m.content_iv).isSome) ∧
    (∀ (db : Store) (manager : WebSocketManager) (conn : Nat) (msg : Message),
      is_valid_message (outcomeOfMessage msg) = false →
      handle_frame db manager conn (some ⟨"send", some msg⟩) =
        .ok [.status false] db manager) := by
  constructor
  · unfold is_valid_message
    rcases h1 : decode_base64 m.chat_id with _ | v1 <;>
      rcases h2 : decode_base64 m.signature with _ | v2 <;>
        rcases h3 : decode_base64 m.content_iv with _ | v3 <;> simp
  · intro db manager conn msg hbad
    have hval : is_valid_message (outcomeOfIncome ⟨"send", some msg⟩) = false := by
      unfold outcomeOfIncome
      simpa using hbad
    simp [handle_frame, hval]

/-- C7 witness: a send with non-base64 `queueId` is rejected with
`Status(false)` and leaves store and registry untouched. -/
theorem C7_validation_checks_three_fields_witness :
    handle_frame [] ⟨[], [], []⟩ 0
        (some ⟨"send", some ⟨1, "!!!", "c2ln", "Y3R4", "aXY="⟩⟩) =
      .ok [.status false] [] ⟨[], [], []⟩ :=
  (C7_validation_checks_three_fields ⟨0, "", "", "", ""⟩).2 [] ⟨[], [], []⟩ 0
    ⟨1, "!!!", "c2ln", "Y3R4", "aXY="⟩ (by decide)

/-- C8: the claim says that after `subscribe(conn, qid)` both sides of the
bi-map record the subscription.  `subscribe_to_chat` only runs
`entry(..).or_default()` on both maps (and spawns the worker queue):
subscribing connection 0 to `"cQ=="` on an empty registry leaves an empty
chat set for the connection and an empty subscriber set for the chat, so
the qid is not in `conn_subs[conn]` and the conn is not in
`queue_subs[qid]`. -/
theorem C8_subscribe_adds_neither_side :
    (subscribe_to_chat emptyManager 0 "cQ==").connections = [(0, [])] ∧
    (subscribe_to_chat emptyManager 0 "cQ==").chats = [("cQ==", [])] ∧
    (subscribe_to_chat emptyManager 0 "cQ==").message_queues = [("cQ==", [])] := by
  refine ⟨by decide, by decide, by decide⟩

/-- C9: on every string the standard-base64 decoder accepts, encoding the
decoded bytes reproduces the string: `encode_base64 ∘ decode_base64 = id`
on accepted inputs. -/
theorem C9_encode_decode_identity (s : String) (b : List Nat)
    (h : decode_base64 s = some b) : encode_base64 b = s := by
  have hcore := encB64_decB64 s.data b h
  unfold encode_base64
  rw [hcore]

/-- C9 witness: `"Zm9v"` decodes to the bytes of `"foo"` and encodes back
to `"Zm9v"`. -/
theorem C9_encode_decode_identity_witness :
    decode_base64 "Zm9v" = some [102, 111, 111] ∧
      encode_base64 [102, 111, 111] = "Zm9v" :=
  ⟨by decide, C9_encode_decode_identity "Zm9v" [102, 111, 111] (by decide)⟩

/-- C10: the backlog-streaming loop stops as soon as a fetched batch is
smaller than the 100-message limit; when the batch is full it advances the
cursor with a checked addition, and on `usize` overflow it emits
`Status(false)` and stops instead of wrapping around; otherwise it recurses
on the advanced cursor (the Lean function is total, so every run on a
finite store terminates). -/
theorem C10_backlog_loop_stops (store : Store) (chat_id : List Nat) (nonce : Nat) :
    ((fetch_history store chat_id nonce MESSAGES_LIMIT).length < MESSAGES_LIMIT →
      unread_message_response store chat_id nonce =
        (fetch_history store chat_id nonce MESSAGES_LIMIT).map Frame.newEvent) ∧
    (¬ (fetch_history store chat_id nonce MESSAGES_LIMIT).length < MESSAGES_LIMIT →
      ¬ nonce + MESSAGES_LIMIT < USIZE_BOUND →
      unread_message_response store chat_id nonce =
        (fetch_history store chat_id nonce MESSAGES_LIMIT).map Frame.newEvent ++
          [Frame.status false]) ∧
    (¬ (fetch_history store chat_id nonce MESSAGES_LIMIT).length < MESSAGES_LIMIT →
      nonce + MESSAGES_LIMIT < USIZE_BOUND →
      unread_message_response store chat_id nonce =
        (fetch_history store chat_id nonce MESSAGES_LIMIT).map Frame.newEvent ++
          unread_message_response store chat_id (nonce + MESSAGES_LIMIT)) := by
  refine ⟨?_, ?_, ?_⟩
  · intro h1
    rw [unread_message_response, if_pos h1]
  · intro h1 h2
    rw [unread_message_response, if_neg h1, dif_neg h2]
  · intro h1 h2
    rw [unread_message_response, if_neg h1, dif_pos h2]

/-- C10 witness: on the empty store the first batch is empty, so the loop
stops immediately with no frames. -/
theorem C10_backlog_loop_stops_witness :
    unread_message_response [] [102, 111, 111] 1 = [] :=
  ((C10_backlog_loop_stops [] [102, 111, 111] 1).1 (by decide)).trans (by decide)

end SeedRust
